import Mathlib

/-!
Shallow embedding of `backend/services/virual_machine_service.go`
(Fleecy-Cloud): an OpenStack API-client facade.

Modelling choices:
* The HTTP transport is an explicit oracle `World : HttpRequest → Except
  String HttpResponse`; `.error e` stands for a transport failure of
  `client.Do`.  Every service function returns its Go result together with
  the list of HTTP requests it handed to the transport, in order.
* Response bodies are modelled as `Option Json` — `some j` for bytes that
  are valid JSON with value `j`, `none` for bytes that are not valid JSON
  (or an unreadable body).  The `unmarshal…` functions mirror Go's
  `encoding/json` behaviour on the concrete target structs of the source:
  a missing or null field keeps the zero value, a field of the wrong shape
  is an unmarshalling error.
* `time.Now()` readings are passed in as explicit `Nat` parameters.
* Go error values are modelled as `String` carrying the source's message
  text (format verbs rendered by concatenation; the raw-body text that two
  messages embed is elided, since bodies are modelled as parsed values).
* The structs of the `models` package (`Participant`, `VirtualMachine`,
  `VMRuntimeInfo`, `VMMonitoringInfo`) are outside this file's source; they
  are plain data records whose relevant fields are exactly the ones this
  service reads or writes, and are declared here with those fields.
-/

/-- A JSON value (string, number, bool, null, array, object). -/
inductive Json where
  | null : Json
  | bool (b : Bool) : Json
  | num (n : Int) : Json
  | str (s : String) : Json
  | arr (elems : List Json) : Json
  | obj (fields : List (String × Json)) : Json

/-- Field lookup in a JSON object's field list (first binding wins). -/
def lookupField : List (String × Json) → String → Option Json
  | [], _ => none
  | (k, v) :: rest, key => if k = key then some v else lookupField rest key

/-- Unmarshal an optional JSON field into a Go `string`:
missing or null keeps the zero value `""`. -/
def asString : Option Json → Except String String
  | none => Except.ok ""
  | some (Json.str s) => Except.ok s
  | some Json.null => Except.ok ""
  | some _ => Except.error "cannot unmarshal into string"

/-- Unmarshal an optional JSON field into a Go `int`:
missing or null keeps the zero value `0`. -/
def asInt : Option Json → Except String Int
  | none => Except.ok 0
  | some (Json.num n) => Except.ok n
  | some Json.null => Except.ok 0
  | some _ => Except.error "cannot unmarshal into int"

/-- One entry of a server's address list: `{addr, OS-EXT-IPS:type}`. -/
structure Address where
  addr : String
  ipType : String
deriving DecidableEq, Repr

/-- `FlavorDetails` of the source: id, name, vcpus, ram (MB), disk (GB). -/
structure FlavorDetails where
  id : String
  name : String
  vcpus : Int
  ram : Int
  disk : Int
deriving DecidableEq, Repr

/-- `VMInstance` of the source: the public instance descriptor. -/
structure VMInstance where
  id : String
  name : String
  status : String
  flavor : FlavorDetails
  addresses : List (String × List Address)
  powerState : Int
  availabilityZone : String
  created : String
  updated : String
deriving DecidableEq, Repr

/-- The anonymous per-server struct both `GetAllVMInstances` and
`GetVMInstance` unmarshal a server object into (flavor kept as its id). -/
structure ServerBasic where
  id : String
  name : String
  status : String
  flavorID : String
  addresses : List (String × List Address)
  powerState : Int
  availabilityZone : String
  created : String
  updated : String
deriving DecidableEq, Repr

/-- The zero value of `ServerBasic`. -/
def zeroServerBasic : ServerBasic :=
  { id := "", name := "", status := "", flavorID := "", addresses := [],
    powerState := 0, availabilityZone := "", created := "", updated := "" }

/-- Unmarshal one element of an `addresses` array. -/
def unmarshalAddress : Json → Except String Address
  | Json.obj fs => do
      let a ← asString (lookupField fs "addr")
      let t ← asString (lookupField fs "OS-EXT-IPS:type")
      Except.ok { addr := a, ipType := t }
  | Json.null => Except.ok { addr := "", ipType := "" }
  | _ => Except.error "cannot unmarshal into address struct"

/-- Unmarshal a JSON array of addresses (null keeps the nil slice). -/
def unmarshalAddrList : Json → Except String (List Address)
  | Json.arr xs => xs.mapM unmarshalAddress
  | Json.null => Except.ok []
  | _ => Except.error "cannot unmarshal into address slice"

/-- Unmarshal the `addresses` field, a JSON object mapping network names to
address arrays (missing or null keeps the nil map). -/
def unmarshalAddresses : Option Json → Except String (List (String × List Address))
  | none => Except.ok []
  | some Json.null => Except.ok []
  | some (Json.obj fs) =>
      fs.mapM (fun kv => do
        let l ← unmarshalAddrList kv.2
        Except.ok (kv.1, l))
  | some _ => Except.error "cannot unmarshal into address map"

/-- Unmarshal the nested `flavor` object of a server into its `id`
(missing or null keeps the zero struct, hence `""`). -/
def unmarshalFlavorID : Option Json → Except String String
  | none => Except.ok ""
  | some Json.null => Except.ok ""
  | some (Json.obj fs) => asString (lookupField fs "id")
  | some _ => Except.error "cannot unmarshal into flavor ref"

/-- Unmarshal a server JSON object into `ServerBasic`, mirroring the
anonymous struct of the source (tags `id`, `name`, `status`, `flavor.id`,
`addresses`, `OS-EXT-STS:power_state`, `OS-EXT-AZ:availability_zone`,
`created`, `updated`). -/
def unmarshalServerBasic : Json → Except String ServerBasic
  | Json.obj fs => do
      let i ← asString (lookupField fs "id")
      let n ← asString (lookupField fs "name")
      let st ← asString (lookupField fs "status")
      let fid ← unmarshalFlavorID (lookupField fs "flavor")
      let ad ← unmarshalAddresses (lookupField fs "addresses")
      let ps ← asInt (lookupField fs "OS-EXT-STS:power_state")
      let az ← asString (lookupField fs "OS-EXT-AZ:availability_zone")
      let cr ← asString (lookupField fs "created")
      let up ← asString (lookupField fs "updated")
      Except.ok { id := i, name := n, status := st, flavorID := fid,
                  addresses := ad, powerState := ps, availabilityZone := az,
                  created := cr, updated := up }
  | Json.null => Except.ok zeroServerBasic
  | _ => Except.error "cannot unmarshal into server struct"

/-- Unmarshal the body of the detail-list endpoint,
`{servers: [...]}` (missing `servers` keeps the nil slice). -/
def unmarshalVMListBasic : Json → Except String (List ServerBasic)
  | Json.obj fs =>
      match lookupField fs "servers" with
      | none => Except.ok []
      | some Json.null => Except.ok []
      | some (Json.arr xs) => xs.mapM unmarshalServerBasic
      | some _ => Except.error "cannot unmarshal into servers slice"
  | Json.null => Except.ok []
  | _ => Except.error "cannot unmarshal into list response"

/-- Unmarshal the body of the single-instance endpoint, `{server: {...}}`
(missing `server` keeps the zero struct). -/
def unmarshalServerResponse : Json → Except String ServerBasic
  | Json.obj fs =>
      match lookupField fs "server" with
      | none => Except.ok zeroServerBasic
      | some j => unmarshalServerBasic j
  | Json.null => Except.ok zeroServerBasic
  | _ => Except.error "cannot unmarshal into server response"

/-- Unmarshal a flavor JSON object into `FlavorDetails`. -/
def unmarshalFlavorDetails : Json → Except String FlavorDetails
  | Json.obj fs => do
      let i ← asString (lookupField fs "id")
      let n ← asString (lookupField fs "name")
      let v ← asInt (lookupField fs "vcpus")
      let r ← asInt (lookupField fs "ram")
      let d ← asInt (lookupField fs "disk")
      Except.ok { id := i, name := n, vcpus := v, ram := r, disk := d }
  | Json.null => Except.ok { id := "", name := "", vcpus := 0, ram := 0, disk := 0 }
  | _ => Except.error "cannot unmarshal into flavor struct"

/-- Unmarshal the body of the flavor-detail endpoint, `{flavor: {...}}`. -/
def unmarshalFlavorResponse : Json → Except String FlavorDetails
  | Json.obj fs =>
      match lookupField fs "flavor" with
      | none => Except.ok { id := "", name := "", vcpus := 0, ram := 0, disk := 0 }
      | some j => unmarshalFlavorDetails j
  | Json.null => Except.ok { id := "", name := "", vcpus := 0, ram := 0, disk := 0 }
  | _ => Except.error "cannot unmarshal into flavor response"

/-- Unmarshal the body `GetVMRuntimeStatus` reads:
`{server: {status, OS-EXT-STS:power_state}}`. -/
def unmarshalRuntimeResponse : Json → Except String (String × Int)
  | Json.obj fs =>
      match lookupField fs "server" with
      | none => Except.ok ("", 0)
      | some Json.null => Except.ok ("", 0)
      | some (Json.obj sfs) => do
          let st ← asString (lookupField sfs "status")
          let ps ← asInt (lookupField sfs "OS-EXT-STS:power_state")
          Except.ok (st, ps)
      | some _ => Except.error "cannot unmarshal into runtime struct"
  | Json.null => Except.ok ("", 0)
  | _ => Except.error "cannot unmarshal into runtime response"

/-- An HTTP request as the service constructs it. -/
structure HttpRequest where
  method : String
  url : String
  headers : List (String × String)
  body : Option Json

/-- An HTTP response: status code, headers, and the body as parsed JSON
(`none` = bytes that are not valid JSON). -/
structure HttpResponse where
  statusCode : Nat
  headers : List (String × String)
  body : Option Json

/-- The transport oracle standing for `client.Do`: `.error` is a
transport failure, `.ok` a delivered response. -/
def World : Type := HttpRequest → Except String HttpResponse

/-- `Header.Get`: first value bound to the key, `""` when absent. -/
def getHeader : List (String × String) → String → String
  | [], _ => ""
  | (k, v) :: rest, key => if k = key then v else getHeader rest key

/-- Decode a response body with an unmarshaller; a body that is not valid
JSON is a parse error (as `json.Unmarshal` on such bytes). -/
def decodeBody {α : Type} (f : Json → Except String α) :
    Option Json → Except String α
  | none => Except.error "invalid JSON"
  | some j => f j

/-- `models.Participant`, restricted to the fields this service reads. -/
structure Participant where
  openStackEndpoint : String
  openStackApplicationCredentialID : String
  openStackApplicationCredentialSecret : String

/-- `models.VirtualMachine`, restricted to the field this service reads. -/
structure VirtualMachine where
  instanceID : String

/-- The application-credential auth payload the source marshals. -/
def authRequestJson (id secret : String) : Json :=
  Json.obj [("auth", Json.obj [("identity", Json.obj
    [("methods", Json.arr [Json.str "application_credential"]),
     ("application_credential",
       Json.obj [("id", Json.str id), ("secret", Json.str secret)])])])]

/-- The POST request `GetAuthToken` builds. -/
def authTokenRequest (p : Participant) : HttpRequest :=
  { method := "POST",
    url := p.openStackEndpoint ++ "/identity/v3/auth/tokens",
    headers := [("Content-Type", "application/json")],
    body := some (authRequestJson p.openStackApplicationCredentialID
                    p.openStackApplicationCredentialSecret) }

/-- `GetAuthToken`: application-credential authentication.  Empty
credential fields fail before any request; otherwise one POST, success
only on HTTP 201 with a non-empty `X-Subject-Token` header. -/
def GetAuthToken (w : World) (p : Participant) :
    Except String String × List HttpRequest :=
  if p.openStackApplicationCredentialID ≠ "" ∧
      p.openStackApplicationCredentialSecret ≠ "" then
    match w (authTokenRequest p) with
    | Except.error e =>
        (Except.error ("인증 요청 실패: " ++ e), [authTokenRequest p])
    | Except.ok resp =>
      if resp.statusCode ≠ 201 then
        (Except.error ("인증 실패: HTTP " ++ toString resp.statusCode),
         [authTokenRequest p])
      else
        if getHeader resp.headers "X-Subject-Token" = "" then
          (Except.error "인증 토큰을 받지 못했습니다", [authTokenRequest p])
        else
          (Except.ok (getHeader resp.headers "X-Subject-Token"),
           [authTokenRequest p])
  else
    (Except.error "application Credential 인증 정보가 필요합니다", [])

/-- The GET request of the flavor-detail endpoint. -/
def flavorDetailsRequest (p : Participant) (token flavorID : String) : HttpRequest :=
  { method := "GET",
    url := p.openStackEndpoint ++ "/compute/v2.1/flavors/" ++ flavorID,
    headers := [("X-Auth-Token", token), ("Accept", "application/json")],
    body := none }

/-- `GetFlavorDetails`: single GET for a flavor's detail; requires
HTTP 200 and a parsable `{flavor: ...}` body. -/
def GetFlavorDetails (w : World) (p : Participant) (token flavorID : String) :
    Except String FlavorDetails × List HttpRequest :=
  match w (flavorDetailsRequest p token flavorID) with
  | Except.error e =>
      (Except.error ("Flavor 정보 조회 실패: " ++ e),
       [flavorDetailsRequest p token flavorID])
  | Except.ok resp =>
    if resp.statusCode ≠ 200 then
      (Except.error ("Flavor 정보 조회 실패: HTTP " ++ toString resp.statusCode),
       [flavorDetailsRequest p token flavorID])
    else
      match decodeBody unmarshalFlavorResponse resp.body with
      | Except.error e =>
          (Except.error ("응답 파싱 실패: " ++ e),
           [flavorDetailsRequest p token flavorID])
      | Except.ok f => (Except.ok f, [flavorDetailsRequest p token flavorID])

/-- The placeholder flavor substituted when a flavor lookup fails
(`Unknown` name, zero resources, the looked-up id kept). -/
def placeholderFlavor (flavorID : String) : FlavorDetails :=
  { id := flavorID, name := "Unknown", vcpus := 0, ram := 0, disk := 0 }

/-- The flavor a server ends up with: the looked-up detail, or the
placeholder when the lookup fails. -/
def resolveFlavor (w : World) (p : Participant) (token : String)
    (server : ServerBasic) : FlavorDetails :=
  match (GetFlavorDetails w p token server.flavorID).1 with
  | Except.error _ => placeholderFlavor server.flavorID
  | Except.ok f => f

/-- The `VMInstance` struct literal both `GetAllVMInstances` and
`GetVMInstance` build from a parsed server and a flavor.  The literal in
the source sets ID, Name, Status, Flavor, Addresses, PowerState, Created
and Updated but not AvailabilityZone, which therefore keeps Go's zero
value `""`. -/
def buildVMInstance (server : ServerBasic) (flavor : FlavorDetails) : VMInstance :=
  { id := server.id, name := server.name, status := server.status,
    flavor := flavor, addresses := server.addresses,
    powerState := server.powerState,
    availabilityZone := "",
    created := server.created, updated := server.updated }

/-- The per-server loop of `GetAllVMInstances`: look up each flavor in
list order, substituting the placeholder on failure, and append the
built descriptor. -/
def enrichServers (w : World) (p : Participant) (token : String) :
    List ServerBasic → List VMInstance × List HttpRequest
  | [] => ([], [])
  | server :: rest =>
    let fr := GetFlavorDetails w p token server.flavorID
    let flavor :=
      match fr.1 with
      | Except.error _ => placeholderFlavor server.flavorID
      | Except.ok f => f
    let tail := enrichServers w p token rest
    (buildVMInstance server flavor :: tail.1, fr.2 ++ tail.2)

/-- The GET request of the detail-list endpoint as `GetAllVMInstances`
builds it. -/
def serversDetailRequest (p : Participant) (token : String) : HttpRequest :=
  { method := "GET",
    url := p.openStackEndpoint ++ "/compute/v2.1/servers/detail",
    headers := [("X-Auth-Token", token), ("Accept", "application/json")],
    body := none }

/-- `GetAllVMInstances`: authenticate, GET the detail list, require
HTTP 200, parse `{servers: [...]}`, and enrich every server with its
flavor detail (placeholder on lookup failure). -/
def GetAllVMInstances (w : World) (p : Participant) :
    Except String (List VMInstance) × List HttpRequest :=
  match GetAuthToken w p with
  | (Except.error e, reqs) => (Except.error ("인증 실패: " ++ e), reqs)
  | (Except.ok token, reqs0) =>
    match w (serversDetailRequest p token) with
    | Except.error e =>
        (Except.error ("VM 목록 조회 실패: " ++ e),
         reqs0 ++ [serversDetailRequest p token])
    | Except.ok resp =>
      if resp.statusCode ≠ 200 then
        (Except.error ("VM 목록 조회 실패: HTTP " ++ toString resp.statusCode),
         reqs0 ++ [serversDetailRequest p token])
      else
        match decodeBody unmarshalVMListBasic resp.body with
        | Except.error e =>
            (Except.error ("응답 파싱 실패: " ++ e),
             reqs0 ++ [serversDetailRequest p token])
        | Except.ok servers =>
          (Except.ok (enrichServers w p token servers).1,
           reqs0 ++ [serversDetailRequest p token] ++
             (enrichServers w p token servers).2)

/-- The GET request of the single-instance endpoint. -/
def serverInstanceRequest (p : Participant) (instanceID : String) (token : String) :
    HttpRequest :=
  { method := "GET",
    url := p.openStackEndpoint ++ "/compute/v2.1/servers/" ++ instanceID,
    headers := [("X-Auth-Token", token)],
    body := none }

/-- `GetVMInstance`: refuse an empty instance id before any request;
otherwise GET the single-instance endpoint, require HTTP 200, parse
`{server: {...}}` and enrich with the flavor detail (placeholder on
lookup failure). -/
def GetVMInstance (w : World) (vm : VirtualMachine) (p : Participant)
    (token : String) : Except String VMInstance × List HttpRequest :=
  if vm.instanceID = "" then
    (Except.error "VM 인스턴스 ID가 설정되지 않았습니다", [])
  else
    match w (serverInstanceRequest p vm.instanceID token) with
    | Except.error e =>
        (Except.error ("VM 정보 조회 실패: " ++ e),
         [serverInstanceRequest p vm.instanceID token])
    | Except.ok resp =>
      if resp.statusCode ≠ 200 then
        (Except.error ("VM 정보 조회 실패: HTTP " ++ toString resp.statusCode),
         [serverInstanceRequest p vm.instanceID token])
      else
        match decodeBody unmarshalServerResponse resp.body with
        | Except.error e =>
            (Except.error ("응답 파싱 실패: " ++ e),
             [serverInstanceRequest p vm.instanceID token])
        | Except.ok server =>
          (Except.ok (buildVMInstance server
             (resolveFlavor w p token server)),
           serverInstanceRequest p vm.instanceID token ::
             (GetFlavorDetails w p token server.flavorID).2)

/-- Unmarshal a full `VMInstance` (the tagged struct of the source),
as `ListVMInstances` parses servers: the nested flavor carries all its
fields and the availability zone is read from its tag. -/
def unmarshalVMInstanceFull : Json → Except String VMInstance
  | Json.obj fs => do
      let i ← asString (lookupField fs "id")
      let n ← asString (lookupField fs "name")
      let st ← asString (lookupField fs "status")
      let fl ←
        match lookupField fs "flavor" with
        | none => Except.ok { id := "", name := "", vcpus := 0, ram := 0, disk := 0 }
        | some j => unmarshalFlavorDetails j
      let ad ← unmarshalAddresses (lookupField fs "addresses")
      let ps ← asInt (lookupField fs "OS-EXT-STS:power_state")
      let az ← asString (lookupField fs "OS-EXT-AZ:availability_zone")
      let cr ← asString (lookupField fs "created")
      let up ← asString (lookupField fs "updated")
      Except.ok { id := i, name := n, status := st, flavor := fl,
                  addresses := ad, powerState := ps, availabilityZone := az,
                  created := cr, updated := up }
  | Json.null => Except.ok (buildVMInstance zeroServerBasic
      { id := "", name := "", vcpus := 0, ram := 0, disk := 0 })
  | _ => Except.error "cannot unmarshal into VMInstance"

/-- Unmarshal `VMListResponse`, `{servers: [VMInstance...]}`. -/
def unmarshalVMListResponse : Json → Except String (List VMInstance)
  | Json.obj fs =>
      match lookupField fs "servers" with
      | none => Except.ok []
      | some Json.null => Except.ok []
      | some (Json.arr xs) => xs.mapM unmarshalVMInstanceFull
      | some _ => Except.error "cannot unmarshal into servers slice"
  | Json.null => Except.ok []
  | _ => Except.error "cannot unmarshal into VMListResponse"

/-- The GET request `ListVMInstances` builds: note its URL path is
`/v2.1/servers/detail`, with no `/compute` segment. -/
def listVMInstancesRequest (p : Participant) (token : String) : HttpRequest :=
  { method := "GET",
    url := p.openStackEndpoint ++ "/v2.1/servers/detail",
    headers := [("X-Auth-Token", token)],
    body := none }

/-- `ListVMInstances`: one GET with a caller-supplied token, require
HTTP 200, parse `VMListResponse` and return its servers unchanged. -/
def ListVMInstances (w : World) (p : Participant) (token : String) :
    Except String (List VMInstance) × List HttpRequest :=
  match w (listVMInstancesRequest p token) with
  | Except.error e =>
      (Except.error ("VM 목록 조회 실패: " ++ e),
       [listVMInstancesRequest p token])
  | Except.ok resp =>
    if resp.statusCode ≠ 200 then
      (Except.error ("VM 목록 조회 실패: HTTP " ++ toString resp.statusCode),
       [listVMInstancesRequest p token])
    else
      match decodeBody unmarshalVMListResponse resp.body with
      | Except.error e =>
          (Except.error ("응답 파싱 실패: " ++ e),
           [listVMInstancesRequest p token])
      | Except.ok servers => (Except.ok servers, [listVMInstancesRequest p token])

/-- `models.VMRuntimeInfo`, restricted to the fields this service writes. -/
structure VMRuntimeInfo where
  instanceID : String
  status : String
  powerState : Int
  lastChecked : Nat
deriving DecidableEq, Repr

/-- `GetVMRuntimeStatus`: authenticate, GET the single-instance endpoint
and parse `{server: {status, power_state}}`.  The source never checks the
response's status code: any response whose body is valid JSON is accepted. -/
def GetVMRuntimeStatus (w : World) (p : Participant) (instanceID : String)
    (now : Nat) : Except String VMRuntimeInfo × List HttpRequest :=
  match GetAuthToken w p with
  | (Except.error e, reqs) => (Except.error ("인증 실패: " ++ e), reqs)
  | (Except.ok token, reqs0) =>
    match w (serverInstanceRequest p instanceID token) with
    | Except.error e =>
        (Except.error ("VM 상태 조회 실패: " ++ e),
         reqs0 ++ [serverInstanceRequest p instanceID token])
    | Except.ok resp =>
      match decodeBody unmarshalRuntimeResponse resp.body with
      | Except.error e =>
          (Except.error ("응답 파싱 실패: " ++ e),
           reqs0 ++ [serverInstanceRequest p instanceID token])
      | Except.ok sp =>
          (Except.ok { instanceID := instanceID, status := sp.1,
                       powerState := sp.2, lastChecked := now },
           reqs0 ++ [serverInstanceRequest p instanceID token])

/-- `VMHealthCheckResult` of the source. -/
structure VMHealthCheckResult where
  healthy : Bool
  status : String
  message : String
  checkedAt : Nat
  responseTime : Int
deriving DecidableEq, Repr

/-- `HealthCheckSpecificVM`: every return path of the source ends in
`..., nil`, so failures of authentication or of the instance fetch become
a negative result (status `ERROR`, the cause in the message) and a
successful fetch yields healthy exactly when the status is `ACTIVE`.
`t0` is the `startTime` reading, `t1` the reading at return. -/
def HealthCheckSpecificVM (w : World) (p : Participant) (vm : VirtualMachine)
    (t0 t1 : Nat) : Except String VMHealthCheckResult × List HttpRequest :=
  match GetAuthToken w p with
  | (Except.error e, reqs) =>
      (Except.ok { healthy := false, status := "ERROR",
                   message := "인증 실패: " ++ e,
                   checkedAt := t1, responseTime := (t1 : Int) - (t0 : Int) },
       reqs)
  | (Except.ok token, reqs0) =>
    match GetVMInstance w vm p token with
    | (Except.error e, reqs1) =>
        (Except.ok { healthy := false, status := "ERROR",
                     message := "VM 조회 실패: " ++ e,
                     checkedAt := t1, responseTime := (t1 : Int) - (t0 : Int) },
         reqs0 ++ reqs1)
    | (Except.ok inst, reqs1) =>
      (Except.ok { healthy := inst.status == "ACTIVE",
                   status := inst.status,
                   message :=
                     if inst.status == "ACTIVE" then
                       "VM이 정상적으로 동작 중입니다"
                     else "VM 상태가 비정상입니다: " ++ inst.status,
                   checkedAt := t1, responseTime := (t1 : Int) - (t0 : Int) },
       reqs0 ++ reqs1)

/-- `models.VMMonitoringInfo`, restricted to the fields this service
writes (usage percentages kept as exact rationals). -/
structure VMMonitoringInfo where
  instanceID : String
  cpuUsage : ℚ
  memoryUsage : ℚ
  diskUsage : ℚ
  networkInBytes : Int
  networkOutBytes : Int
  lastUpdated : Nat
deriving DecidableEq, Repr

/-- `GetVMMonitoringInfo`: simulated monitoring data — fixed numeric
values, the call-time reading in `lastUpdated`. -/
def GetVMMonitoringInfo (instanceID : String) (now : Nat) :
    Except String VMMonitoringInfo :=
  Except.ok { instanceID := instanceID,
              cpuUsage := 75.5, memoryUsage := 82.3, diskUsage := 45.8,
              networkInBytes := 1024000, networkOutBytes := 2048000,
              lastUpdated := now }

/-! ## Concrete fixtures used by witnesses and counterexamples -/

/-- A concrete participant with complete credentials. -/
def pW : Participant :=
  { openStackEndpoint := "http://cloud",
    openStackApplicationCredentialID := "id1",
    openStackApplicationCredentialSecret := "sec1" }

/-- A concrete participant whose credential secret is empty. -/
def pNoSecret : Participant :=
  { openStackEndpoint := "http://cloud",
    openStackApplicationCredentialID := "id1",
    openStackApplicationCredentialSecret := "" }

/-- A transport on which every request fails. -/
def wErr : World := fun _ => Except.error "unreachable"

/-- A concrete virtual machine with an empty instance id. -/
def vmNoID : VirtualMachine := { instanceID := "" }

/-- A concrete virtual machine bound to instance `i-1`. -/
def vmI1 : VirtualMachine := { instanceID := "i-1" }

/-- Source JSON of a server whose availability zone is `nova`. -/
def server1Json : Json :=
  Json.obj [("id", Json.str "i-1"), ("name", Json.str "vm-one"),
    ("status", Json.str "ACTIVE"),
    ("flavor", Json.obj [("id", Json.str "f1")]),
    ("addresses", Json.obj [("net",
      Json.arr [Json.obj [("addr", Json.str "10.0.0.5"),
                          ("OS-EXT-IPS:type", Json.str "fixed")]])]),
    ("OS-EXT-STS:power_state", Json.num 1),
    ("OS-EXT-AZ:availability_zone", Json.str "nova"),
    ("created", Json.str "2024-01-01T00:00:00Z"),
    ("updated", Json.str "2024-01-02T00:00:00Z")]

/-- Source JSON of a second server (flavor `f2`, no addresses given). -/
def server2Json : Json :=
  Json.obj [("id", Json.str "i-2"), ("name", Json.str "vm-two"),
    ("status", Json.str "SHUTOFF"),
    ("flavor", Json.obj [("id", Json.str "f2")]),
    ("OS-EXT-STS:power_state", Json.num 4),
    ("OS-EXT-AZ:availability_zone", Json.str "nova"),
    ("created", Json.str "c2"), ("updated", Json.str "u2")]

/-- The detail-list body holding both servers. -/
def listJson : Json := Json.obj [("servers", Json.arr [server1Json, server2Json])]

/-- `server1Json` as the parse step reads it. -/
def server1 : ServerBasic :=
  { id := "i-1", name := "vm-one", status := "ACTIVE", flavorID := "f1",
    addresses := [("net", [{ addr := "10.0.0.5", ipType := "fixed" }])],
    powerState := 1, availabilityZone := "nova",
    created := "2024-01-01T00:00:00Z", updated := "2024-01-02T00:00:00Z" }

/-- `server2Json` as the parse step reads it. -/
def server2 : ServerBasic :=
  { id := "i-2", name := "vm-two", status := "SHUTOFF", flavorID := "f2",
    addresses := [], powerState := 4, availabilityZone := "nova",
    created := "c2", updated := "u2" }

/-- The flavor detail of `f1`. -/
def flavor1 : FlavorDetails :=
  { id := "f1", name := "m1.small", vcpus := 2, ram := 2048, disk := 20 }

/-- The flavor-detail body of `f1`. -/
def flavor1Json : Json :=
  Json.obj [("flavor", Json.obj [("id", Json.str "f1"),
    ("name", Json.str "m1.small"), ("vcpus", Json.num 2),
    ("ram", Json.num 2048), ("disk", Json.num 20)])]

/-- The 201 authentication response carrying token `tok`. -/
def respAuthOk : HttpResponse :=
  { statusCode := 201, headers := [("X-Subject-Token", "tok")],
    body := some Json.null }

/-- The 200 detail-list response carrying `listJson`. -/
def respList : HttpResponse :=
  { statusCode := 200, headers := [], body := some listJson }

/-- A 404 response whose body is the valid JSON object with no fields. -/
def resp404 : HttpResponse :=
  { statusCode := 404, headers := [], body := some (Json.obj []) }

/-- A transport simulating a cloud with the two servers above: the flavor
lookup of `f1` succeeds, every other flavor lookup gets a 404. -/
def wCloud : World := fun req =>
  if req.method = "POST" then Except.ok respAuthOk
  else if req.url = "http://cloud/compute/v2.1/servers/detail" then
    Except.ok respList
  else if req.url = "http://cloud/compute/v2.1/servers/i-1" then
    Except.ok { statusCode := 200, headers := [],
                body := some (Json.obj [("server", server1Json)]) }
  else if req.url = "http://cloud/compute/v2.1/flavors/f1" then
    Except.ok { statusCode := 200, headers := [], body := some flavor1Json }
  else Except.ok resp404

/-! ## Helper lemmas -/

/-- `GetFlavorDetails` issues exactly one request, on every path. -/
theorem getFlavorDetails_requests (w : World) (p : Participant)
    (token fid : String) :
    (GetFlavorDetails w p token fid).2 = [flavorDetailsRequest p token fid] := by
  rcases hw : w (flavorDetailsRequest p token fid) with e | resp
  · simp [GetFlavorDetails, hw]
  · rcases hd : decodeBody unmarshalFlavorResponse resp.body with e | f <;>
      by_cases hs : resp.statusCode = 200 <;>
        simp [GetFlavorDetails, hw, hs, hd]

/-- The descriptors the enrichment loop builds: one per server, in order,
each from its own server and resolved flavor. -/
theorem enrichServers_fst (w : World) (p : Participant) (token : String)
    (ss : List ServerBasic) :
    (enrichServers w p token ss).1 =
      ss.map (fun s => buildVMInstance s (resolveFlavor w p token s)) := by
  induction ss with
  | nil => rfl
  | cons s rest ih =>
      simp only [enrichServers, List.map]
      rw [← ih]
      rfl

/-- The flavor lookups the enrichment loop issues: one per server, in the
order the servers appear. -/
theorem enrichServers_snd (w : World) (p : Participant) (token : String)
    (ss : List ServerBasic) :
    (enrichServers w p token ss).2 =
      ss.map (fun s => flavorDetailsRequest p token s.flavorID) := by
  induction ss with
  | nil => rfl
  | cons s rest ih =>
      simp only [enrichServers, List.map]
      rw [getFlavorDetails_requests, ← ih]
      rfl

/-! ## Claim theorems -/

/-- C1 (code bug) — the round-trip claim fails on the availability zone:
on a server JSON whose `OS-EXT-AZ:availability_zone` is `"nova"` (and
which the parse step reads faithfully, as the third and fourth conjuncts
show), the descriptor `GetVMInstance` builds carries availability zone
`""`, because the `VMInstance` struct literal of the source never sets
that field.  All other fields round-trip, as the explicit result record
shows. -/
theorem getVMInstance_drops_availability_zone :
    (GetVMInstance wCloud vmI1 pW "tok").1 =
      Except.ok { id := "i-1", name := "vm-one", status := "ACTIVE",
                  flavor := flavor1,
                  addresses := [("net", [{ addr := "10.0.0.5", ipType := "fixed" }])],
                  powerState := 1,
                  availabilityZone := "",
                  created := "2024-01-01T00:00:00Z",
                  updated := "2024-01-02T00:00:00Z" } ∧
    unmarshalServerResponse (Json.obj [("server", server1Json)]) =
      Except.ok server1 ∧
    server1.availabilityZone = "nova" ∧
    asString (lookupField
      [("server", server1Json)] "server" |>.bind
        (fun j => match j with
          | Json.obj fs => lookupField fs "OS-EXT-AZ:availability_zone"
          | _ => none)) = Except.ok "nova" :=
  ⟨rfl, rfl, rfl, rfl⟩

/-- C2 (code bug) — `GetVMRuntimeStatus` accepts a non-200 response:
against a transport whose single-instance endpoint answers HTTP 404 with
the valid JSON body `{}` (second and third conjuncts), it returns a
parsed runtime record (zero-valued) instead of a failure. -/
theorem getVMRuntimeStatus_accepts_non200 :
    wCloud (serverInstanceRequest pW "i-9" "tok") = Except.ok resp404 ∧
    resp404.statusCode = 404 ∧
    (GetVMRuntimeStatus wCloud pW "i-9" 7).1 =
      Except.ok { instanceID := "i-9", status := "", powerState := 0,
                  lastChecked := 7 } :=
  ⟨rfl, rfl, rfl⟩

/-- C3 — with an empty application-credential id or secret,
`GetAuthToken` fails with the configuration error and issues no HTTP
request (its request log is empty). -/
theorem getAuthToken_empty_credentials (w : World) (p : Participant)
    (h : p.openStackApplicationCredentialID = "" ∨
         p.openStackApplicationCredentialSecret = "") :
    GetAuthToken w p =
      (Except.error "application Credential 인증 정보가 필요합니다", []) := by
  have hn : ¬(p.openStackApplicationCredentialID ≠ "" ∧
      p.openStackApplicationCredentialSecret ≠ "") := by
    rcases h with h | h <;> simp [h]
  unfold GetAuthToken
  rw [if_neg hn]

/-- C3 witness: the empty-secret participant, on a transport that would
fail any request that reached it. -/
theorem getAuthToken_empty_credentials_witness :
    GetAuthToken wErr pNoSecret =
      (Except.error "application Credential 인증 정보가 필요합니다", []) :=
  getAuthToken_empty_credentials wErr pNoSecret (Or.inr rfl)

/-- C10 — with an empty instance id, `GetVMInstance` fails immediately
and issues no HTTP request (its request log is empty). -/
theorem getVMInstance_empty_id (w : World) (vm : VirtualMachine)
    (p : Participant) (token : String) (h : vm.instanceID = "") :
    GetVMInstance w vm p token =
      (Except.error "VM 인스턴스 ID가 설정되지 않았습니다", []) := by
  unfold GetVMInstance
  rw [if_pos h]

/-- C10 witness: the empty-id virtual machine, on a transport that would
fail any request that reached it. -/
theorem getVMInstance_empty_id_witness :
    GetVMInstance wErr vmNoID pW "tok" =
      (Except.error "VM 인스턴스 ID가 설정되지 않았습니다", []) :=
  getVMInstance_empty_id wErr vmNoID pW "tok" rfl

/-- C6 — with non-empty credentials and a delivered response,
`GetAuthToken` succeeds exactly when the status is 201 and the
`X-Subject-Token` header is non-empty, and any successful token is
exactly that header's value. -/
theorem getAuthToken_success_iff (w : World) (p : Participant)
    (h1 : p.openStackApplicationCredentialID ≠ "")
    (h2 : p.openStackApplicationCredentialSecret ≠ "")
    (resp : HttpResponse)
    (hw : w (authTokenRequest p) = Except.ok resp) :
    ((∃ t, (GetAuthToken w p).1 = Except.ok t) ↔
      (resp.statusCode = 201 ∧ getHeader resp.headers "X-Subject-Token" ≠ "")) ∧
    ∀ t, (GetAuthToken w p).1 = Except.ok t →
      t = getHeader resp.headers "X-Subject-Token" := by
  have hcred : p.openStackApplicationCredentialID ≠ "" ∧
      p.openStackApplicationCredentialSecret ≠ "" := ⟨h1, h2⟩
  by_cases hs : resp.statusCode = 201
  · by_cases ht : getHeader resp.headers "X-Subject-Token" = "" <;>
      simp [GetAuthToken, hcred, hw, hs, ht]
  · simp [GetAuthToken, hcred, hw, hs]

/-- C6 witness: the simulated cloud answers the auth POST with 201 and
`X-Subject-Token: tok`. -/
theorem getAuthToken_success_iff_witness :
    ((∃ t, (GetAuthToken wCloud pW).1 = Except.ok t) ↔
      (respAuthOk.statusCode = 201 ∧
       getHeader respAuthOk.headers "X-Subject-Token" ≠ "")) ∧
    ∀ t, (GetAuthToken wCloud pW).1 = Except.ok t →
      t = getHeader respAuthOk.headers "X-Subject-Token" :=
  getAuthToken_success_iff wCloud pW (by decide) (by decide) respAuthOk rfl

/-- C4 — on a successfully fetched and parsed server list,
`GetAllVMInstances` succeeds with exactly one descriptor per server, and
any server whose flavor lookup fails is still present, carrying the
`Unknown` zero-valued placeholder flavor. -/
theorem getAllVMInstances_flavor_fallback
    (w : World) (p : Participant) (token : String)
    (authReqs : List HttpRequest) (resp : HttpResponse)
    (servers : List ServerBasic)
    (hauth : GetAuthToken w p = (Except.ok token, authReqs))
    (hlist : w (serversDetailRequest p token) = Except.ok resp)
    (h200 : resp.statusCode = 200)
    (hbody : decodeBody unmarshalVMListBasic resp.body = Except.ok servers) :
    ∃ l, (GetAllVMInstances w p).1 = Except.ok l ∧
      l.length = servers.length ∧
      ∀ (i : Nat) s, servers[i]? = some s →
        ∀ e, (GetFlavorDetails w p token s.flavorID).1 = Except.error e →
          l[i]? = some (buildVMInstance s
            { id := s.flavorID, name := "Unknown",
              vcpus := 0, ram := 0, disk := 0 }) := by
  refine ⟨(enrichServers w p token servers).1, ?_, ?_, ?_⟩
  · simp [GetAllVMInstances, hauth, hlist, h200, hbody]
  · rw [enrichServers_fst]
    simp
  · intro i s hi e he
    rw [enrichServers_fst, List.getElem?_map, hi]
    simp [resolveFlavor, he, placeholderFlavor]

/-- C4 witness: the simulated cloud lists two servers; the flavor lookup
of the second (`f2`) gets a 404 and the second descriptor carries the
placeholder. -/
theorem getAllVMInstances_flavor_fallback_witness :
    ∃ l, (GetAllVMInstances wCloud pW).1 = Except.ok l ∧
      l.length = ([server1, server2] : List ServerBasic).length ∧
      ∀ (i : Nat) s, ([server1, server2] : List ServerBasic)[i]? = some s →
        ∀ e, (GetFlavorDetails wCloud pW "tok" s.flavorID).1 = Except.error e →
          l[i]? = some (buildVMInstance s
            { id := s.flavorID, name := "Unknown",
              vcpus := 0, ram := 0, disk := 0 }) :=
  getAllVMInstances_flavor_fallback wCloud pW "tok" [authTokenRequest pW]
    respList [server1, server2] rfl rfl rfl rfl

/-- C8 — on a successfully fetched and parsed server list, the flavor
lookups are issued one at a time in list order (the request log is the
auth request, then the list request, then one flavor request per server
in order), and the i-th returned descriptor is built from the i-th
server. -/
theorem getAllVMInstances_order
    (w : World) (p : Participant) (token : String)
    (authReqs : List HttpRequest) (resp : HttpResponse)
    (servers : List ServerBasic)
    (hauth : GetAuthToken w p = (Except.ok token, authReqs))
    (hlist : w (serversDetailRequest p token) = Except.ok resp)
    (h200 : resp.statusCode = 200)
    (hbody : decodeBody unmarshalVMListBasic resp.body = Except.ok servers) :
    (GetAllVMInstances w p).1 =
      Except.ok (servers.map
        (fun s => buildVMInstance s (resolveFlavor w p token s))) ∧
    (GetAllVMInstances w p).2 =
      authReqs ++ serversDetailRequest p token ::
        servers.map (fun s => flavorDetailsRequest p token s.flavorID) := by
  constructor
  · simp [GetAllVMInstances, hauth, hlist, h200, hbody, enrichServers_fst]
  · simp [GetAllVMInstances, hauth, hlist, h200, hbody, enrichServers_snd]

/-- C8 witness: on the simulated cloud the request log is the auth POST,
the list GET, then the two flavor GETs in server order, and the
descriptors are the two servers' in order. -/
theorem getAllVMInstances_order_witness :
    (GetAllVMInstances wCloud pW).1 =
      Except.ok (([server1, server2] : List ServerBasic).map
        (fun s => buildVMInstance s (resolveFlavor wCloud pW "tok" s))) ∧
    (GetAllVMInstances wCloud pW).2 =
      [authTokenRequest pW] ++ serversDetailRequest pW "tok" ::
        ([server1, server2] : List ServerBasic).map
          (fun s => flavorDetailsRequest pW "tok" s.flavorID) :=
  getAllVMInstances_order wCloud pW "tok" [authTokenRequest pW]
    respList [server1, server2] rfl rfl rfl rfl

/-- C7 counterexample — `ListVMInstances` sends its GET to
`{endpoint}/v2.1/servers/detail`, which is not
`{endpoint}/compute/v2.1/servers/detail`: the claim fails for it. -/
theorem listVMInstances_url_counterexample :
    (ListVMInstances wErr pW "tok").2.map HttpRequest.url =
      ["http://cloud/v2.1/servers/detail"] ∧
    "http://cloud/v2.1/servers/detail" ≠
      pW.openStackEndpoint ++ "/compute/v2.1/servers/detail" :=
  ⟨rfl, by decide⟩

/-- C7 amended — `GetAllVMInstances` sends its collection GET to
`{endpoint}/compute/v2.1/servers/detail` with the token in
`X-Auth-Token`, while `ListVMInstances` sends its one GET to
`{endpoint}/v2.1/servers/detail` (no `/compute` segment), also with the
token in `X-Auth-Token`. -/
theorem listing_request_urls (w : World) (p : Participant) (token : String)
    (authReqs : List HttpRequest)
    (hauth : GetAuthToken w p = (Except.ok token, authReqs)) :
    (∃ rest, (GetAllVMInstances w p).2 =
        authReqs ++ serversDetailRequest p token :: rest) ∧
    (serversDetailRequest p token).method = "GET" ∧
    (serversDetailRequest p token).url =
      p.openStackEndpoint ++ "/compute/v2.1/servers/detail" ∧
    getHeader (serversDetailRequest p token).headers "X-Auth-Token" = token ∧
    (ListVMInstances w p token).2 = [listVMInstancesRequest p token] ∧
    (listVMInstancesRequest p token).method = "GET" ∧
    (listVMInstancesRequest p token).url =
      p.openStackEndpoint ++ "/v2.1/servers/detail" ∧
    getHeader (listVMInstancesRequest p token).headers "X-Auth-Token" = token := by
  refine ⟨?_, rfl, rfl, rfl, ?_, rfl, rfl, rfl⟩
  · rcases hw : w (serversDetailRequest p token) with e | resp
    · exact ⟨[], by simp [GetAllVMInstances, hauth, hw]⟩
    · by_cases hs : resp.statusCode = 200
      · rcases hb : decodeBody unmarshalVMListBasic resp.body with e | servers
        · exact ⟨[], by simp [GetAllVMInstances, hauth, hw, hs, hb]⟩
        · exact ⟨(enrichServers w p token servers).2,
            by simp [GetAllVMInstances, hauth, hw, hs, hb]⟩
      · exact ⟨[], by simp [GetAllVMInstances, hauth, hw, hs]⟩
  · rcases hw : w (listVMInstancesRequest p token) with e | resp
    · simp [ListVMInstances, hw]
    · rcases hb : decodeBody unmarshalVMListResponse resp.body with e | servers <;>
        by_cases hs : resp.statusCode = 200 <;>
          simp [ListVMInstances, hw, hs, hb]

/-- C7 amended witness: on the simulated cloud, with the token obtained
by the auth POST. -/
theorem listing_request_urls_witness :
    (∃ rest, (GetAllVMInstances wCloud pW).2 =
        [authTokenRequest pW] ++ serversDetailRequest pW "tok" :: rest) ∧
    (serversDetailRequest pW "tok").method = "GET" ∧
    (serversDetailRequest pW "tok").url =
      pW.openStackEndpoint ++ "/compute/v2.1/servers/detail" ∧
    getHeader (serversDetailRequest pW "tok").headers "X-Auth-Token" = "tok" ∧
    (ListVMInstances wCloud pW "tok").2 = [listVMInstancesRequest pW "tok"] ∧
    (listVMInstancesRequest pW "tok").method = "GET" ∧
    (listVMInstancesRequest pW "tok").url =
      pW.openStackEndpoint ++ "/v2.1/servers/detail" ∧
    getHeader (listVMInstancesRequest pW "tok").headers "X-Auth-Token" = "tok" :=
  listing_request_urls wCloud pW "tok" [authTokenRequest pW] rfl

/-- C9 — two calls of `GetVMMonitoringInfo` with the same instance id
agree on every numeric field (the fixed simulation constants) and on the
instance id; only `lastUpdated` reflects each call's time. -/
theorem getVMMonitoringInfo_deterministic (instanceID : String) (t1 t2 : Nat) :
    ∃ r1 r2, GetVMMonitoringInfo instanceID t1 = Except.ok r1 ∧
      GetVMMonitoringInfo instanceID t2 = Except.ok r2 ∧
      r1.cpuUsage = r2.cpuUsage ∧ r1.memoryUsage = r2.memoryUsage ∧
      r1.diskUsage = r2.diskUsage ∧
      r1.networkInBytes = r2.networkInBytes ∧
      r1.networkOutBytes = r2.networkOutBytes ∧
      r1.instanceID = r2.instanceID ∧
      r1.cpuUsage = 75.5 ∧ r1.memoryUsage = 82.3 ∧ r1.diskUsage = 45.8 ∧
      r1.networkInBytes = 1024000 ∧ r1.networkOutBytes = 2048000 ∧
      r1.lastUpdated = t1 ∧ r2.lastUpdated = t2 :=
  ⟨_, _, rfl, rfl, rfl, rfl, rfl, rfl, rfl, rfl, rfl, rfl, rfl, rfl, rfl, rfl, rfl⟩

/-- The negative health result `HealthCheckSpecificVM` builds from a
failure message. -/
def errorHealthResult (msg : String) (t0 t1 : Nat) : VMHealthCheckResult :=
  { healthy := false, status := "ERROR", message := msg,
    checkedAt := t1, responseTime := (t1 : Int) - (t0 : Int) }

/-- The health result `HealthCheckSpecificVM` builds from a fetched
instance status. -/
def fetchedHealthResult (st : String) (t0 t1 : Nat) : VMHealthCheckResult :=
  { healthy := st == "ACTIVE", status := st,
    message :=
      if st == "ACTIVE" then "VM이 정상적으로 동작 중입니다"
      else "VM 상태가 비정상입니다: " ++ st,
    checkedAt := t1, responseTime := (t1 : Int) - (t0 : Int) }

/-- C5 — `HealthCheckSpecificVM` always returns a result (never an
error): an authentication or fetch failure yields an unhealthy result
with status `ERROR` and the cause in the message, and a successful fetch
yields healthy exactly when the instance status is `ACTIVE`, echoing a
non-`ACTIVE` status in the message. -/
theorem healthCheckSpecificVM_total (w : World) (p : Participant)
    (vm : VirtualMachine) (t0 t1 : Nat) :
    ∃ r, (HealthCheckSpecificVM w p vm t0 t1).1 = Except.ok r ∧
      (∀ e reqs, GetAuthToken w p = (Except.error e, reqs) →
        r.healthy = false ∧ r.status = "ERROR" ∧
        r.message = "인증 실패: " ++ e) ∧
      ∀ token reqs0, GetAuthToken w p = (Except.ok token, reqs0) →
        (∀ e reqs1, GetVMInstance w vm p token = (Except.error e, reqs1) →
          r.healthy = false ∧ r.status = "ERROR" ∧
          r.message = "VM 조회 실패: " ++ e) ∧
        ∀ inst reqs1, GetVMInstance w vm p token = (Except.ok inst, reqs1) →
          (r.healthy = true ↔ inst.status = "ACTIVE") ∧
          r.status = inst.status ∧
          (inst.status ≠ "ACTIVE" →
            r.message = "VM 상태가 비정상입니다: " ++ inst.status) := by
  rcases hA : GetAuthToken w p with ⟨eA | tokenA, reqsA⟩
  · refine ⟨errorHealthResult ("인증 실패: " ++ eA) t0 t1,
      by simp [HealthCheckSpecificVM, hA, errorHealthResult], ?_, ?_⟩
    · intro e reqs h
      injection h with h1 h2
      injection h1 with h3
      subst h3
      exact ⟨rfl, rfl, rfl⟩
    · intro token reqs0 h
      injection h with h1 h2
      injection h1
  · rcases hB : GetVMInstance w vm p tokenA with ⟨eB | inst, reqsB⟩
    · refine ⟨errorHealthResult ("VM 조회 실패: " ++ eB) t0 t1,
        by simp [HealthCheckSpecificVM, hA, hB, errorHealthResult], ?_, ?_⟩
      · intro e reqs h
        injection h with h1 h2
        injection h1
      · intro token reqs0 h
        injection h with h1 h2
        injection h1 with h3
        subst h3
        constructor
        · intro e reqs1 h'
          rw [hB] at h'
          injection h' with g1 g2
          injection g1 with g3
          subst g3
          exact ⟨rfl, rfl, rfl⟩
        · intro inst reqs1 h'
          rw [hB] at h'
          injection h' with g1 g2
          injection g1
    · refine ⟨fetchedHealthResult inst.status t0 t1,
        by simp [HealthCheckSpecificVM, hA, hB, fetchedHealthResult], ?_, ?_⟩
      · intro e reqs h
        injection h with h1 h2
        injection h1
      · intro token reqs0 h
        injection h with h1 h2
        injection h1 with h3
        subst h3
        constructor
        · intro e reqs1 h'
          rw [hB] at h'
          injection h' with g1 g2
          injection g1
        · intro inst2 reqs1 h'
          rw [hB] at h'
          injection h' with g1 g2
          injection g1 with g3
          subst g3
          refine ⟨?_, rfl, ?_⟩
          · simp [fetchedHealthResult]
          · intro hneq
            simp [fetchedHealthResult, hneq]
